import Mathlib

/-!
Verification development for the CO2 sensor MQTT nexus
(src/nexus/co2sensorNexus.py).

The program keeps a Python dictionary `connectedDevices` mapping device
UUIDs to `[sumCO2, sumTemp, sampleCount]` accumulators, a JSON
configuration dictionary `configData`, publishes MQTT frames and forwards
telemetry over HTTP.  We embed the registry as an insertion-ordered
association list (Python dicts preserve insertion order and have unique
keys), bytes as `Nat`, Python's unbounded integers as `Int`/`Nat`, and
Python's floor division `//` as `Int.fdiv`.  Outbound effects (config
persistence, MQTT publishes) are returned as explicit event lists.
-/

namespace CO2Nexus

/-- A device identity: the 16 raw bytes of the UUID
(`uuid.UUID(bytes=...)`, lines 52 and 74 of the source). -/
abbrev DeviceId := List Nat

/-- Per-device accumulator `[sumCO2, sumTemp, sampleCount]`
(`connectedDevices[newDevice] = [0, 0, 0]`, line 58). -/
structure Accum where
  sumCO2 : Int
  sumTemp : Int
  sampleCount : Nat
deriving DecidableEq

/-- The freshly initialized accumulator `[0, 0, 0]`. -/
def Accum.zero : Accum := ⟨0, 0, 0⟩

/-- The `connectedDevices` dictionary, as an insertion-ordered association
list with unique keys. -/
abbrev Registry := List (DeviceId × Accum)

/-- Association-list lookup, modelling Python dict access `d[k]` /
`k in d`. -/
def alookup {α β : Type} [DecidableEq α] (k : α) : List (α × β) → Option β
  | [] => none
  | p :: rest => if p.1 = k then some p.2 else alookup k rest

/-- `on_message`, announce branch, lines 54-58: if the device is already
present it is deleted, then a fresh `[0, 0, 0]` entry is inserted (at the
end, per Python dict insertion order). -/
def announceReg (id : DeviceId) (reg : Registry) : Registry :=
  reg.filter (fun p => decide (p.1 ≠ id)) ++ [(id, Accum.zero)]

/-- `on_message`, data branch, lines 84-86: add the sample to the running
sums and bump the count. -/
def addSample (a : Accum) (c t : Int) : Accum :=
  ⟨a.sumCO2 + c, a.sumTemp + t, a.sampleCount + 1⟩

/-- The registry-level effect of a data message (lines 76-86): if the
device has a session its accumulator is updated, otherwise the registry is
left unchanged. -/
def recordSampleReg (id : DeviceId) (c t : Int) (reg : Registry) : Registry :=
  if (alookup id reg).isSome then
    reg.map (fun p => if p.1 = id then (p.1, addSample p.2 c t) else p)
  else reg

/-- Reporter loop body for one device, lines 255-259: a device with
`sampleCount == 0` is skipped (`continue`), otherwise the reported entry
holds the floor-division means `deviceData[0] // deviceData[2]` and
`deviceData[1] // deviceData[2]` (Python `//` on ints is floor division,
`Int.fdiv`). -/
def snapEntry (p : DeviceId × Accum) : Option (DeviceId × Int × Int) :=
  if p.2.sampleCount ≠ 0 then
    some (p.1, p.2.sumCO2.fdiv (p.2.sampleCount : Int),
          p.2.sumTemp.fdiv (p.2.sampleCount : Int))
  else none

/-- Reporter loop body, lines 255-263: a reported device's accumulator is
reset to `[0, 0, 0]` (line 263); a skipped device is left untouched. -/
def resetEntry (p : DeviceId × Accum) : DeviceId × Accum :=
  if p.2.sampleCount ≠ 0 then (p.1, Accum.zero) else p

/-- One reporter tick over the whole registry, lines 252-263: the list of
reported `(device, co2Mean, tempMean)` entries and the registry afterwards. -/
def snapshotAndReset (reg : Registry) : List (DeviceId × Int × Int) × Registry :=
  (reg.filterMap snapEntry, reg.map resetEntry)

/-- Two little-endian bytes reinterpreted as a signed 16-bit value, the
`h` directive of `struct` (`dataStruct = struct.Struct("<16s2h")`, line 21). -/
def toInt16 (v : Nat) : Int :=
  if v % 65536 < 32768 then ((v % 65536 : Nat) : Int)
  else ((v % 65536 : Nat) : Int) - 65536

/-- Decoding an announce payload, lines 50-52: the `assert` demands exactly
`announceResetStruct.size = 16` bytes; any other length raises and the
message is discarded, which we model as `none`. -/
def decodeAnnounce (payload : List Nat) : Option DeviceId :=
  if payload.length = 16 then some payload else none

/-- Decoding a data payload, lines 70-74: the `assert` demands exactly
`dataStruct.size = 20` bytes (`"<16s2h"`); on success the first 16 bytes
are the identity and bytes 16-19 are two little-endian int16 values. -/
def decodeData (payload : List Nat) : Option (DeviceId × Int × Int) :=
  if payload.length = 20 then
    some (payload.take 16,
          toInt16 (payload.getD 16 0 + 256 * payload.getD 17 0),
          toInt16 (payload.getD 18 0 + 256 * payload.getD 19 0))
  else none

/-- Lower-case hex digit, as produced by Python's `str(uuid.UUID(...))`. -/
def hexDigit (n : Nat) : Char :=
  if n < 10 then Char.ofNat (48 + n) else Char.ofNat (87 + n)

/-- The two hex characters of one byte. -/
def byteHexChars (b : Nat) : List Char :=
  [hexDigit (b / 16 % 16), hexDigit (b % 16)]

/-- Hex rendering of a byte sequence. -/
def bytesHex (bs : List Nat) : String :=
  String.mk (bs.flatMap byteHexChars)

/-- `str(device)[24:]` (lines 79 and 124): the canonical 36-character UUID
string is 24 characters (8+1+4+1+4+1+4+1) followed by the hex of the last
6 identity bytes, so the `[24:]` slice is exactly
`bytesHex (bs.drop 10)` — see `uuidStr` below, whose literal tail this is. -/
def uuidSuffix (bs : List Nat) : String :=
  bytesHex (bs.drop 10)

/-- `str(device)`: canonical UUID rendering `8-4-4-4-12` lower-case hex of
the 16 identity bytes. -/
def uuidStr (bs : List Nat) : String :=
  bytesHex (bs.take 4) ++ "-" ++ bytesHex ((bs.drop 4).take 2) ++ "-" ++
  bytesHex ((bs.drop 6).take 2) ++ "-" ++ bytesHex ((bs.drop 8).take 2) ++ "-" ++
  uuidSuffix bs

/-- The seven `globalConf` fields (`loadConfigDefault`, lines 144-150).
JSON numbers are unbounded Python ints, so every field is an `Int`; the
wire codec, not the store, constrains them to 16 bits. -/
structure GlobalConf where
  measureEachMsec : Int
  sendAfterMeasures : Int
  greenLEDThreshold : Int
  yellowLEDThreshold : Int
  orangeLEDThreshold : Int
  makeBuzzEverySec : Int
  enableLEDEverySec : Int
deriving DecidableEq

/-- One per-device entry of `configData["devices"]` (lines 107-112). -/
structure DeviceConf where
  name : String
  usesGlobalConfig : Bool
  apiName : String
  config : GlobalConf
deriving DecidableEq

/-- The parts of `configData` the dispatcher touches: `globalConf` and the
insertion-ordered `devices` dictionary. -/
structure ConfigData where
  globalConf : GlobalConf
  devices : List (String × DeviceConf)
deriving DecidableEq

/-- Observable outbound effects: a `saveConfig()` call (persistence) or an
MQTT publish of a payload to a topic. -/
inductive Event where
  | persist : Event
  | publish : String → List Nat → Event
deriving DecidableEq

/-- The fresh per-device configuration generated on first contact,
lines 107-111: `name = "Device-<current device count>"`,
`usesGlobalConfig = True`, `apiName = "XXXX"`, `config` a copy of
`globalConf`. -/
def freshDeviceConf (cd : ConfigData) : DeviceConf :=
  ⟨"Device-" ++ toString cd.devices.length, true, "XXXX", cd.globalConf⟩

/-- Range accepted by `struct.pack` for the `H` (unsigned short) directive. -/
abbrev inU16 (v : Int) : Prop := 0 ≤ v ∧ v < 65536

/-- Range accepted by `struct.pack` for the `h` (signed short) directive. -/
abbrev inS16 (v : Int) : Prop := -32768 ≤ v ∧ v ≤ 32767

/-- Little-endian bytes of an in-range unsigned 16-bit value. -/
def packU16 (v : Int) : List Nat :=
  [v.toNat % 256, v.toNat / 256 % 256]

/-- Little-endian two's-complement bytes of an in-range signed 16-bit value. -/
def packS16 (v : Int) : List Nat :=
  packU16 (v.emod 65536)

/-- `configStruct.pack` with format `"<5H2h"` (lines 20 and 120-122).
Python 3's `struct.pack` raises `struct.error` for any argument outside
the directive's range (it does not wrap or truncate); we model the raise
as `none`.  In range, the result is the 14-byte little-endian encoding. -/
def configPack (g : GlobalConf) : Option (List Nat) :=
  if inU16 g.measureEachMsec ∧ inU16 g.sendAfterMeasures ∧
     inU16 g.greenLEDThreshold ∧ inU16 g.yellowLEDThreshold ∧
     inU16 g.orangeLEDThreshold ∧ inS16 g.makeBuzzEverySec ∧
     inS16 g.enableLEDEverySec then
    some (packU16 g.measureEachMsec ++ packU16 g.sendAfterMeasures ++
          packU16 g.greenLEDThreshold ++ packU16 g.yellowLEDThreshold ++
          packU16 g.orangeLEDThreshold ++ packS16 g.makeBuzzEverySec ++
          packS16 g.enableLEDEverySec)
  else none

/-- `sendConfig`, lines 102-127: if the device is unknown to
`configData["devices"]`, generate the default entry and persist
(`saveConfig()`); then select the global or per-device config by the
`usesGlobalConfig` flag, pack it and publish to
`CO2S/conf/<str(device)[24:]>`.  A `struct.error` from packing is caught
(`"Failed to send config data!"`), so nothing is published in that case;
the `none` fallback of the match is unreachable because the device entry
always exists at that point. -/
def sendConfig (device : DeviceId) (cd : ConfigData) : ConfigData × List Event :=
  let uuidS := uuidStr device
  let res :=
    if (alookup uuidS cd.devices).isSome then (cd, ([] : List Event))
    else (⟨cd.globalConf, cd.devices ++ [(uuidS, freshDeviceConf cd)]⟩, [Event.persist])
  let useConf :=
    match alookup uuidS res.1.devices with
    | some dc => if dc.usesGlobalConfig then res.1.globalConf else dc.config
    | none => res.1.globalConf
  match configPack useConf with
  | some bytes =>
      (res.1, res.2 ++ [Event.publish ("CO2S/conf/" ++ uuidSuffix device) bytes])
  | none => (res.1, res.2)

/-- `on_message`, announce branch, lines 46-65: the size `assert` at
line 50 is the first statement of the `try` block, so an undersized or
oversized payload raises before any state is touched and the `except`
swallows it; otherwise the device is (re-)announced and its config sent. -/
def onAnnounceMessage (payload : List Nat) (reg : Registry) (cd : ConfigData) :
    Registry × ConfigData × List Event :=
  if payload.length = 16 then
    let sc := sendConfig payload cd
    (announceReg payload reg, sc.1, sc.2)
  else (reg, cd, [])

/-- `on_message`, data branch, lines 67-90: decode failures are swallowed;
an unknown device gets the 7-byte `b'aaaaaaa'` reset-request published to
`CO2S/conf/<str(device)[24:]>` (line 79) and the registry is untouched; a
known device's accumulator is updated. -/
def onDataMessage (payload : List Nat) (reg : Registry) : Registry × List Event :=
  match decodeData payload with
  | none => (reg, [])
  | some dct =>
    if (alookup dct.1 reg).isSome then
      (recordSampleReg dct.1 dct.2.1 dct.2.2 reg, [])
    else
      (reg, [Event.publish ("CO2S/conf/" ++ uuidSuffix dct.1) (List.replicate 7 97)])

/-- The retry loop of `sendUbidotsPayload`, lines 195-201:
`while status >= 400 and attempts <= 5`.  `attempts` counts completed POST
calls; `remaining` is `6 - attempts`, so `remaining = 0` is exactly
`attempts > 5` and the structural recursion mirrors the bounded `while`.
`st n` is the status code returned by the (n+1)-th POST call. -/
def ubidotsLoop (st : Nat → Nat) : Nat → Nat → Nat → Nat × Nat
  | status, attempts, 0 => (status, attempts)
  | status, attempts, remaining + 1 =>
    if 400 ≤ status then ubidotsLoop st (st attempts) (attempts + 1) remaining
    else (status, attempts)

/-- `sendUbidotsPayload`, lines 187-208, abstracted over the collaborator's
status codes: runs the retry loop from `status = 400`, `attempts = 0` and
returns `(success, number of POST calls made)`; `success` is `False` iff
the final status is still `>= 400` (lines 205-208). -/
def sendUbidotsPayload (st : Nat → Nat) : Bool × Nat :=
  let r := ubidotsLoop st 400 0 6
  (decide (r.1 < 400), r.2)

/-- `loadConfigDefault`, lines 144-152: the default `globalConf` values and
an empty `devices` dictionary (the report and MQTT transport sections are
not part of the dispatcher state modelled here). -/
def loadConfigDefault : ConfigData :=
  ⟨⟨2000, 10, 700, 800, 1000, 300, 5⟩, []⟩

/-- Kinds of observable actions relevant to the locking discipline of §5. -/
inductive ActionKind where
  | registryAccess
  | publishFrame
  | httpForward
deriving DecidableEq

/-- One action together with whether `connectedLock` is held when it runs. -/
structure TraceEvent where
  kind : ActionKind
  underLock : Bool
deriving DecidableEq

/-- Action trace of the announce branch of `on_message` (lines 47-61) for a
re-announced device: `with connectedLock:` at line 47 covers the whole
branch, including the `sendConfig` call at line 61 whose MQTT publish
(line 124, after a 2-second sleep at line 123) therefore runs under the
lock. -/
def announceTrace : List TraceEvent :=
  [⟨ActionKind.registryAccess, true⟩,   -- line 54: `newDevice in connectedDevices`
   ⟨ActionKind.registryAccess, true⟩,   -- line 56: `del connectedDevices[newDevice]`
   ⟨ActionKind.registryAccess, true⟩,   -- line 58: `connectedDevices[newDevice] = [0,0,0]`
   ⟨ActionKind.publishFrame, true⟩]     -- line 124 via line 61: publish under the lock

/-- Action trace of the data branch of `on_message` for an unknown device
(lines 67-79): the membership test at line 76 runs with no lock held
(the `with connectedLock:` of this branch only starts at line 82, in the
`else` arm), and so does the reset-request publish at line 79. -/
def dataTraceUnknown : List TraceEvent :=
  [⟨ActionKind.registryAccess, false⟩,  -- line 76: `not device in connectedDevices`
   ⟨ActionKind.publishFrame, false⟩]    -- line 79

/-- Action trace of the data branch of `on_message` for a known device
(lines 67-86): unlocked membership test at line 76, then the three
accumulator updates at lines 84-86 under the lock taken at line 82. -/
def dataTraceKnown : List TraceEvent :=
  [⟨ActionKind.registryAccess, false⟩,  -- line 76
   ⟨ActionKind.registryAccess, true⟩,   -- line 84
   ⟨ActionKind.registryAccess, true⟩,   -- line 85
   ⟨ActionKind.registryAccess, true⟩]   -- line 86

/-- Action trace of one reporter tick in `main` (lines 245-264): the
emptiness test `len(connectedDevices) == 0` at line 248 runs with no lock
held; the `with connectedLock:` at line 252 then covers the iteration,
the HTTP forwarding call `sendUbidotsPayload(...)` at line 261 (up to six
POSTs with 1-second sleeps) and the accumulator reset at line 263. -/
def reporterTrace : List TraceEvent :=
  [⟨ActionKind.registryAccess, false⟩,  -- line 248: `len(connectedDevices) == 0`
   ⟨ActionKind.registryAccess, true⟩,   -- lines 253-259: iterate and read accumulators
   ⟨ActionKind.httpForward, true⟩,      -- line 261: sendUbidotsPayload under the lock
   ⟨ActionKind.registryAccess, true⟩]   -- line 263: reset accumulator

/-- All modelled execution-context traces that touch the registry. -/
def allNexusTraces : List TraceEvent :=
  announceTrace ++ dataTraceUnknown ++ dataTraceKnown ++ reporterTrace

/-- The locking discipline claimed in §5: every registry access holds the
lock, and no publish or HTTP forward happens while it is held. -/
def eventOK (e : TraceEvent) : Bool :=
  match e.kind with
  | ActionKind.registryAccess => e.underLock
  | ActionKind.publishFrame => !e.underLock
  | ActionKind.httpForward => !e.underLock

/-- Whether a whole trace obeys the §5 locking discipline. -/
def lockDisciplineOK (es : List TraceEvent) : Bool :=
  es.all eventOK

/-! ## Helper lemmas about association lists -/

/-- Lookup falls through to the second list when the key misses the first. -/
theorem alookup_append_of_none {α β : Type} [DecidableEq α] (k : α)
    {l : List (α × β)} (m : List (α × β)) (h : alookup k l = none) :
    alookup k (l ++ m) = alookup k m := by
  induction l with
  | nil => simp
  | cons p rest ih =>
    by_cases hpk : p.1 = k
    · simp [alookup, hpk] at h
    · rw [List.cons_append, alookup, if_neg hpk]
      rw [alookup, if_neg hpk] at h
      exact ih h

/-- Filtering out a key makes its lookup miss. -/
theorem alookup_filter_ne {α β : Type} [DecidableEq α] (k : α) (l : List (α × β)) :
    alookup k (l.filter fun p => decide (p.1 ≠ k)) = none := by
  induction l with
  | nil => rfl
  | cons p rest ih =>
    by_cases hpk : p.1 = k
    · simpa [List.filter_cons, hpk] using ih
    · rw [List.filter_cons]
      simp only [hpk, decide_not, decide_eq_true_eq]
      simpa [alookup, hpk] using ih

/-- Appending a binding for a fresh key makes its lookup hit it. -/
theorem alookup_snoc_self {α β : Type} [DecidableEq α] (k : α) (v : β)
    {l : List (α × β)} (h : alookup k l = none) :
    alookup k (l ++ [(k, v)]) = some v := by
  rw [alookup_append_of_none k _ h]
  simp [alookup]

/-- A freshly announced device has the zero accumulator. -/
theorem alookup_announce_self (id : DeviceId) (reg : Registry) :
    alookup id (announceReg id reg) = some Accum.zero := by
  rw [announceReg]
  exact alookup_snoc_self id Accum.zero (alookup_filter_ne id reg)

/-- Updating the entry of one key through `List.map` updates its lookup. -/
theorem alookup_record_map (id : DeviceId) (c t : Int) :
    ∀ reg : Registry,
      alookup id (reg.map fun p => if p.1 = id then (p.1, addSample p.2 c t) else p)
        = (alookup id reg).map fun a => addSample a c t := by
  intro reg
  induction reg with
  | nil => rfl
  | cons p rest ih =>
    by_cases hpk : p.1 = id
    · simp [alookup, hpk]
    · simp only [List.map_cons, if_neg hpk]
      rw [alookup, if_neg hpk, alookup, if_neg hpk]
      exact ih

/-- Recording a sample for a present device adds to its accumulator. -/
theorem alookup_recordSample (id : DeviceId) (c t : Int) {reg : Registry} {a : Accum}
    (h : alookup id reg = some a) :
    alookup id (recordSampleReg id c t reg) = some (addSample a c t) := by
  rw [recordSampleReg, if_pos (by rw [h]; rfl), alookup_record_map, h]
  rfl

/-- Folding a list of samples into a present device accumulates the sums
componentwise and adds the number of samples to the count. -/
theorem alookup_foldl_record (id : DeviceId) (samples : List (Int × Int)) :
    ∀ (reg : Registry) (a : Accum), alookup id reg = some a →
      alookup id (samples.foldl (fun r p => recordSampleReg id p.1 p.2 r) reg)
        = some ⟨a.sumCO2 + (samples.map Prod.fst).sum,
                a.sumTemp + (samples.map Prod.snd).sum,
                a.sampleCount + samples.length⟩ := by
  induction samples with
  | nil =>
    intro reg a h
    simpa using h
  | cons p rest ih =>
    intro reg a h
    have h1 := alookup_recordSample id p.1 p.2 h
    have h2 := ih _ _ h1
    simp only [List.foldl_cons]
    rw [h2]
    simp only [addSample, List.map_cons, List.sum_cons, List.length_cons,
      Option.some.injEq, Accum.mk.injEq]
    refine ⟨by ring, by ring, by omega⟩

/-- A device with a nonzero count appears in the report with the
floor-division means of its sums. -/
theorem alookup_snap (id : DeviceId) :
    ∀ (reg : Registry) (a : Accum), alookup id reg = some a → a.sampleCount ≠ 0 →
      alookup id (reg.filterMap snapEntry)
        = some (a.sumCO2.fdiv (a.sampleCount : Int), a.sumTemp.fdiv (a.sampleCount : Int)) := by
  intro reg
  induction reg with
  | nil =>
    intro a h _
    simp [alookup] at h
  | cons p rest ih =>
    intro a h hc
    by_cases hpk : p.1 = id
    · rw [alookup, if_pos hpk] at h
      obtain rfl : p.2 = a := by injection h
      rw [List.filterMap_cons, snapEntry, if_pos hc, alookup, if_pos hpk]
    · rw [alookup, if_neg hpk] at h
      rw [List.filterMap_cons]
      by_cases hc2 : p.2.sampleCount = 0
      · rw [snapEntry, if_neg (by simpa using hc2)]
        exact ih a h hc
      · rw [snapEntry, if_pos hc2, alookup, if_neg hpk]
        exact ih a h hc

/-- A device with a nonzero count has its accumulator reset to zero by the
report pass. -/
theorem alookup_reset (id : DeviceId) :
    ∀ (reg : Registry) (a : Accum), alookup id reg = some a → a.sampleCount ≠ 0 →
      alookup id (reg.map resetEntry) = some Accum.zero := by
  intro reg
  induction reg with
  | nil =>
    intro a h _
    simp [alookup] at h
  | cons p rest ih =>
    intro a h hc
    by_cases hpk : p.1 = id
    · rw [alookup, if_pos hpk] at h
      obtain rfl : p.2 = a := by injection h
      rw [List.map_cons, resetEntry, if_pos hc, alookup, if_pos hpk]
    · rw [alookup, if_neg hpk] at h
      rw [List.map_cons]
      have hfst : (resetEntry p).1 = p.1 := by
        rw [resetEntry]
        split <;> rfl
      rw [alookup, hfst, if_neg hpk]
      exact ih a h hc

/-! ## Claim theorems -/

/-- C1: announcing a device, recording N > 0 samples (c₁,t₁)…(cₙ,tₙ) for it
and then running the reporter pass yields for that device exactly the pair
of floor-division means (⌊Σc/N⌋, ⌊Σt/N⌋), and the device's accumulator
(sumCO2, sumTemp, sampleCount) is (0, 0, 0) immediately afterwards. -/
theorem recordSamples_then_snapshot_means (id : DeviceId) (reg : Registry)
    (samples : List (Int × Int)) (h : samples ≠ []) :
    alookup id (snapshotAndReset
        (samples.foldl (fun r p => recordSampleReg id p.1 p.2 r) (announceReg id reg))).1
      = some (((samples.map Prod.fst).sum).fdiv (samples.length : Int),
              ((samples.map Prod.snd).sum).fdiv (samples.length : Int))
  ∧ alookup id (snapshotAndReset
        (samples.foldl (fun r p => recordSampleReg id p.1 p.2 r) (announceReg id reg))).2
      = some Accum.zero := by
  have h0 := alookup_announce_self id reg
  have h1 := alookup_foldl_record id samples (announceReg id reg) Accum.zero h0
  simp only [Accum.zero, zero_add, Nat.zero_add] at h1
  have hc : (⟨(samples.map Prod.fst).sum, (samples.map Prod.snd).sum,
      samples.length⟩ : Accum).sampleCount ≠ 0 := by
    simpa using fun hlen => h (List.length_eq_zero.mp hlen)
  exact ⟨alookup_snap id _ _ h1 hc, alookup_reset id _ _ h1 hc⟩

/-- C1 witness: two samples (700, 22) and (900, 24) report the means
(800, 23) and leave the zero accumulator. -/
theorem recordSamples_then_snapshot_means_witness :
    (([(700, 22), (900, 24)] : List (Int × Int)) ≠ [])
  ∧ alookup [0] (snapshotAndReset
        (([(700, 22), (900, 24)] : List (Int × Int)).foldl
          (fun r p => recordSampleReg [0] p.1 p.2 r) (announceReg [0] []))).1
      = some (800, 23)
  ∧ alookup [0] (snapshotAndReset
        (([(700, 22), (900, 24)] : List (Int × Int)).foldl
          (fun r p => recordSampleReg [0] p.1 p.2 r) (announceReg [0] []))).2
      = some Accum.zero := by
  have h := recordSamples_then_snapshot_means [0] [] [(700, 22), (900, 24)] (by decide)
  exact ⟨by decide, h.1.trans (by decide), h.2⟩

/-- C7: a payload whose length is not the expected fixed frame size
(16 bytes for Announce, 20 bytes for Data) fails to decode, with no
partial result. -/
theorem decode_wrong_size_fails (p : List Nat) :
    (p.length ≠ 16 → decodeAnnounce p = none) ∧ (p.length ≠ 20 → decodeData p = none) :=
  ⟨fun h => by simp [decodeAnnounce, h], fun h => by simp [decodeData, h]⟩

/-- C7 witness: the 3-byte payload [1, 2, 3] decodes to `none` as both an
Announce and a Data frame. -/
theorem decode_wrong_size_fails_witness :
    ([1, 2, 3] : List Nat).length ≠ 16 ∧ decodeAnnounce [1, 2, 3] = none
  ∧ ([1, 2, 3] : List Nat).length ≠ 20 ∧ decodeData [1, 2, 3] = none :=
  ⟨by decide, (decode_wrong_size_fails [1, 2, 3]).1 (by decide),
   by decide, (decode_wrong_size_fails [1, 2, 3]).2 (by decide)⟩

/-- C10: an Announce payload of any length other than 16 bytes leaves the
session registry and the configuration store completely unchanged and
produces no outbound event — the `assert` precedes every mutation. -/
theorem announce_wrong_size_unchanged (payload : List Nat) (reg : Registry)
    (cd : ConfigData) (h : payload.length ≠ 16) :
    onAnnounceMessage payload reg cd = (reg, cd, []) := by
  simp [onAnnounceMessage, h]

/-- C10 witness: a 2-byte announce payload mutates nothing. -/
theorem announce_wrong_size_unchanged_witness :
    ([97, 98] : List Nat).length ≠ 16
  ∧ onAnnounceMessage [97, 98] [] loadConfigDefault = ([], loadConfigDefault, []) :=
  ⟨by decide, announce_wrong_size_unchanged [97, 98] [] loadConfigDefault (by decide)⟩

/-- C4, counterexample to the claim as stated: a config whose
`measureEachMsec` field is 65536 (just outside the 16-bit range) is
rejected by the codec (`struct.pack` raises `struct.error`), rather than
being wrapped or truncated. -/
theorem configPack_out_of_range_fails :
    configPack ⟨65536, 10, 700, 800, 1000, 300, 5⟩ = none := by decide

/-- C4, amended: for a config record whose five unsigned fields lie in
[0, 65536) and whose two signed fields lie in [-32768, 32767], encoding
never fails and produces exactly the 14-byte fixed-size sequence;
out-of-range fields make the codec fail instead of wrapping. -/
theorem configPack_in_range_14_bytes (g : GlobalConf)
    (h : inU16 g.measureEachMsec ∧ inU16 g.sendAfterMeasures ∧
         inU16 g.greenLEDThreshold ∧ inU16 g.yellowLEDThreshold ∧
         inU16 g.orangeLEDThreshold ∧ inS16 g.makeBuzzEverySec ∧
         inS16 g.enableLEDEverySec) :
    ∃ bytes, configPack g = some bytes ∧ bytes.length = 14 := by
  rw [configPack, if_pos h]
  exact ⟨_, rfl, by simp [packU16, packS16]⟩

/-- C4 witness: the default global config is in range and packs to
14 bytes. -/
theorem configPack_in_range_14_bytes_witness :
    (inU16 (2000 : Int) ∧ inU16 (10 : Int) ∧ inU16 (700 : Int) ∧ inU16 (800 : Int) ∧
     inU16 (1000 : Int) ∧ inS16 (300 : Int) ∧ inS16 (5 : Int))
  ∧ ∃ bytes, configPack ⟨2000, 10, 700, 800, 1000, 300, 5⟩ = some bytes ∧ bytes.length = 14 :=
  ⟨by decide, configPack_in_range_14_bytes ⟨2000, 10, 700, 800, 1000, 300, 5⟩ (by decide)⟩

/-- C3, refuting the claimed locking discipline: the discipline check
fails on the program's traces; concretely the membership test of the data
branch (line 76) and the emptiness test of the reporter (line 248) access
the registry with no lock held, while the announce branch publishes the
config frame (line 124 via line 61) and the reporter performs the HTTP
forwarding (line 261) with the lock held. -/
theorem lock_discipline_violations :
    lockDisciplineOK allNexusTraces = false
  ∧ (⟨ActionKind.registryAccess, false⟩ : TraceEvent) ∈ dataTraceUnknown
  ∧ (⟨ActionKind.registryAccess, false⟩ : TraceEvent) ∈ reporterTrace
  ∧ (⟨ActionKind.publishFrame, true⟩ : TraceEvent) ∈ announceTrace
  ∧ (⟨ActionKind.httpForward, true⟩ : TraceEvent) ∈ reporterTrace := by
  decide

/-- Announcing a device leaves exactly one binding for it, holding the
zero accumulator, whatever the registry held before. -/
theorem filter_eq_announce (id : DeviceId) (l : Registry) :
    (announceReg id l).filter (fun p => decide (p.1 = id)) = [(id, Accum.zero)] := by
  rw [announceReg, List.filter_append]
  have h1 : (l.filter fun p => decide (p.1 ≠ id)).filter (fun p => decide (p.1 = id)) = [] := by
    induction l with
    | nil => rfl
    | cons p rest ih =>
      by_cases hpk : p.1 = id
      · simp [List.filter_cons, hpk, ih]
      · simp [List.filter_cons, hpk, ih]
  rw [h1]
  simp [List.filter_cons]

/-- C5: announce is idempotent on state shape — announcing `id`, folding
in any sequence of recordSample calls (for any devices), and announcing
`id` again leaves exactly one session for `id`, with a freshly zeroed
accumulator; whatever was accumulated between the two calls is discarded. -/
theorem announce_twice_single_zero_session (id : DeviceId) (reg : Registry)
    (samples : List (DeviceId × Int × Int)) :
    (announceReg id (samples.foldl
        (fun r s => recordSampleReg s.1 s.2.1 s.2.2 r) (announceReg id reg))).filter
      (fun p => decide (p.1 = id)) = [(id, Accum.zero)] :=
  filter_eq_announce id _

/-- C6: a well-formed 20-byte Data frame whose identity has no session
makes the dispatcher publish exactly one 7-byte reset-request frame
(`b'aaaaaaa'`, seven bytes 0x61) to `CO2S/conf/<hex of the last 6 identity
bytes>`, and leaves the registry unchanged (no session is created). -/
theorem unknown_device_reset_request (payload : List Nat) (reg : Registry)
    (hlen : payload.length = 20) (hunk : alookup (payload.take 16) reg = none) :
    onDataMessage payload reg =
      (reg, [Event.publish ("CO2S/conf/" ++ bytesHex ((payload.take 16).drop 10))
               (List.replicate 7 97)])
  ∧ (List.replicate 7 97 : List Nat).length = 7 := by
  refine ⟨?_, by simp⟩
  rw [onDataMessage, decodeData, if_pos hlen]
  simp [hunk, uuidSuffix]

/-- C6 witness: a 20-byte all-zero data frame against the empty registry
publishes the single reset request and changes nothing. -/
theorem unknown_device_reset_request_witness :
    (List.replicate 20 0 : List Nat).length = 20
  ∧ alookup ((List.replicate 20 0 : List Nat).take 16) ([] : Registry) = none
  ∧ onDataMessage (List.replicate 20 0) [] =
      ([], [Event.publish ("CO2S/conf/" ++ bytesHex (((List.replicate 20 0 : List Nat).take 16).drop 10))
              (List.replicate 7 97)])
  ∧ (List.replicate 7 97 : List Nat).length = 7 := by
  have h := unknown_device_reset_request (List.replicate 20 0) [] (by decide) rfl
  exact ⟨by decide, rfl, h.1, h.2⟩

/-- After a reporter pass every accumulator has count zero, so a second
immediate pass reports nothing. -/
theorem snap_of_reset_nil (reg : Registry) :
    (reg.map resetEntry).filterMap snapEntry = [] := by
  induction reg with
  | nil => rfl
  | cons p rest ih =>
    have hnone : snapEntry (resetEntry p) = none := by
      by_cases hc : p.2.sampleCount = 0 <;>
        simp [resetEntry, snapEntry, hc, Accum.zero]
    rw [List.map_cons, List.filterMap_cons, hnone]
    exact ih

/-- Every reported entry comes from a session with a nonzero count. -/
theorem mem_snap_exists (reg : Registry) (e : DeviceId × Int × Int)
    (he : e ∈ reg.filterMap snapEntry) :
    ∃ a : Accum, (e.1, a) ∈ reg ∧ a.sampleCount ≠ 0 := by
  obtain ⟨p, hp, hsp⟩ := List.mem_filterMap.mp he
  by_cases hc : p.2.sampleCount = 0
  · simp [snapEntry, hc] at hsp
  · rw [snapEntry, if_pos hc] at hsp
    refine ⟨p.2, ?_, hc⟩
    have h1 : e.1 = p.1 := by
      injection hsp with hsp'
      rw [← hsp']
    rw [h1]
    exact hp

/-- In a list with pairwise-distinct keys, two bindings of the same key
carry the same value. -/
theorem mem_unique_of_pairwise {α β : Type} {l : List (α × β)} {k : α} {a b : β}
    (hp : l.Pairwise (fun x y => x.1 ≠ y.1)) (ha : (k, a) ∈ l) (hb : (k, b) ∈ l) :
    a = b := by
  induction l with
  | nil => simp at ha
  | cons p rest ih =>
    rw [List.pairwise_cons] at hp
    rcases List.mem_cons.mp ha with ha1 | ha2
    · rcases List.mem_cons.mp hb with hb1 | hb2
      · exact (Prod.ext_iff.mp (ha1.trans hb1.symm)).2
      · have hne := hp.1 (k, b) hb2
        rw [← ha1] at hne
        simp at hne
    · rcases List.mem_cons.mp hb with hb1 | hb2
      · have hne := hp.1 (k, a) ha2
        rw [← hb1] at hne
        simp at hne
      · exact ih hp.2 ha2 hb2

/-- C8: the reporter pass never returns an entry for (and never divides
the sums of) a session whose sampleCount is zero — such sessions are
skipped and left untouched — and a second immediate pass right after a
report returns the empty sequence. -/
theorem snapshot_skips_zero_sessions (reg : Registry) (id : DeviceId) (acc : Accum)
    (hkeys : reg.Pairwise (fun x y => x.1 ≠ y.1))
    (hmem : (id, acc) ∈ reg) (hz : acc.sampleCount = 0) :
    ((∀ e ∈ (snapshotAndReset reg).1, e.1 ≠ id)
     ∧ (id, acc) ∈ (snapshotAndReset reg).2)
  ∧ (snapshotAndReset (snapshotAndReset reg).2).1 = [] := by
  refine ⟨⟨?_, ?_⟩, ?_⟩
  · intro e he heq
    obtain ⟨a, hamem, hca⟩ := mem_snap_exists reg e he
    rw [heq] at hamem
    exact hca (by rw [mem_unique_of_pairwise hkeys hamem hmem]; exact hz)
  · exact List.mem_map.mpr ⟨(id, acc), hmem, by simp [resetEntry, hz]⟩
  · exact snap_of_reset_nil reg

/-- C8 witness: a registry with one zero-count session reports nothing,
keeps the session untouched, and a second pass reports nothing either. -/
theorem snapshot_skips_zero_sessions_witness :
    ([([0], (⟨5, 7, 0⟩ : Accum))] : Registry).Pairwise (fun x y => x.1 ≠ y.1)
  ∧ (([0], (⟨5, 7, 0⟩ : Accum)) ∈ ([([0], ⟨5, 7, 0⟩)] : Registry))
  ∧ (⟨5, 7, 0⟩ : Accum).sampleCount = 0
  ∧ (((∀ e ∈ (snapshotAndReset [([0], ⟨5, 7, 0⟩)]).1, e.1 ≠ [0])
      ∧ (([0], (⟨5, 7, 0⟩ : Accum)) ∈ (snapshotAndReset [([0], ⟨5, 7, 0⟩)]).2))
     ∧ (snapshotAndReset (snapshotAndReset [([0], ⟨5, 7, 0⟩)]).2).1 = []) := by
  refine ⟨by simp, by simp, rfl, ?_⟩
  exact snapshot_skips_zero_sessions [([0], ⟨5, 7, 0⟩)] [0] ⟨5, 7, 0⟩ (by simp) (by simp) rfl

/-- C9: the first-ever Announce for an identity unknown to the
configuration store creates exactly one entry with the §3 defaults
(name `Device-<current device count>`, `usesGlobalConfig = true`,
placeholder `apiName = "XXXX"`, a copy of the global config), emits
exactly one persist event before the single Config-frame publish, and the
published frame is the packing of the current global config. -/
theorem first_announce_creates_then_publishes (device : DeviceId) (cd : ConfigData)
    (bytes : List Nat) (hnew : alookup (uuidStr device) cd.devices = none)
    (hpack : configPack cd.globalConf = some bytes) :
    sendConfig device cd =
      (⟨cd.globalConf, cd.devices ++ [(uuidStr device, freshDeviceConf cd)]⟩,
       [Event.persist, Event.publish ("CO2S/conf/" ++ uuidSuffix device) bytes])
  ∧ freshDeviceConf cd =
      ⟨"Device-" ++ toString cd.devices.length, true, "XXXX", cd.globalConf⟩ := by
  refine ⟨?_, rfl⟩
  rw [sendConfig]
  simp only [hnew, Option.isSome_none, Bool.false_eq_true, if_false,
    alookup_snoc_self (uuidStr device) (freshDeviceConf cd) hnew]
  simp [freshDeviceConf, hpack]

/-- C9 witness: the all-zero identity against the default (empty) config
store generates the default device entry, persists once, and publishes the
packed default global config. -/
theorem first_announce_creates_then_publishes_witness :
    alookup (uuidStr (List.replicate 16 0)) loadConfigDefault.devices = none
  ∧ configPack loadConfigDefault.globalConf
      = some [208, 7, 10, 0, 188, 2, 32, 3, 232, 3, 44, 1, 5, 0]
  ∧ sendConfig (List.replicate 16 0) loadConfigDefault =
      (⟨loadConfigDefault.globalConf,
        loadConfigDefault.devices ++
          [(uuidStr (List.replicate 16 0), freshDeviceConf loadConfigDefault)]⟩,
       [Event.persist,
        Event.publish ("CO2S/conf/" ++ uuidSuffix (List.replicate 16 0))
          [208, 7, 10, 0, 188, 2, 32, 3, 232, 3, 44, 1, 5, 0]])
  ∧ freshDeviceConf loadConfigDefault =
      ⟨"Device-" ++ toString loadConfigDefault.devices.length, true, "XXXX",
       loadConfigDefault.globalConf⟩ := by
  have h := first_announce_creates_then_publishes (List.replicate 16 0) loadConfigDefault
    [208, 7, 10, 0, 188, 2, 32, 3, 232, 3, 44, 1, 5, 0] rfl (by decide)
  exact ⟨rfl, by decide, h.1, h.2⟩

/-- The retry loop makes between `a` and `a + r` total calls when entered
with `attempts = a` and `remaining = r`. -/
theorem ubidotsLoop_bounds (st : Nat → Nat) :
    ∀ (r s a : Nat), a ≤ (ubidotsLoop st s a r).2 ∧ (ubidotsLoop st s a r).2 ≤ a + r := by
  intro r
  induction r with
  | zero =>
    intro s a
    exact ⟨Nat.le_refl a, by simp [ubidotsLoop]⟩
  | succ r ih =>
    intro s a
    by_cases hs : 400 ≤ s
    · rw [ubidotsLoop, if_pos hs]
      obtain ⟨h1, h2⟩ := ih (st a) (a + 1)
      exact ⟨by omega, by omega⟩
    · rw [ubidotsLoop, if_neg hs]
      exact ⟨Nat.le_refl a, by omega⟩

/-- Either the retry loop exits immediately, or its final status is the
status of its last POST call. -/
theorem ubidotsLoop_final (st : Nat → Nat) :
    ∀ (r s a : Nat), ubidotsLoop st s a r = (s, a) ∨
      ((ubidotsLoop st s a r).1 = st ((ubidotsLoop st s a r).2 - 1)
       ∧ a + 1 ≤ (ubidotsLoop st s a r).2) := by
  intro r
  induction r with
  | zero =>
    intro s a
    exact Or.inl rfl
  | succ r ih =>
    intro s a
    by_cases hs : 400 ≤ s
    · rw [ubidotsLoop, if_pos hs]
      rcases ih (st a) (a + 1) with heq | ⟨h1, h2⟩
      · rw [heq]
        exact Or.inr ⟨by simp, Nat.le_refl _⟩
      · exact Or.inr ⟨h1, by omega⟩
    · rw [ubidotsLoop, if_neg hs]
      exact Or.inl rfl

/-- C2: the HTTP forwarding makes between 1 and 6 POST calls, returns true
iff the status of its last call is < 400, and on the two concrete
collaborators of the spec: statuses 500,500,500,200 give success after
exactly 4 calls, and all-500 gives failure after exactly 6 calls. -/
theorem sendUbidotsPayload_retry_contract (st : Nat → Nat) :
    (1 ≤ (sendUbidotsPayload st).2 ∧ (sendUbidotsPayload st).2 ≤ 6
     ∧ ((sendUbidotsPayload st).1 = true ↔ st ((sendUbidotsPayload st).2 - 1) < 400))
  ∧ sendUbidotsPayload (fun i => if i < 3 then 500 else 200) = (true, 4)
  ∧ sendUbidotsPayload (fun _ => 500) = (false, 6) := by
  refine ⟨?_, by decide, by decide⟩
  have hstep : ubidotsLoop st 400 0 6 = ubidotsLoop st (st 0) 1 5 := by
    rw [ubidotsLoop, if_pos (by omega)]
  have hb := ubidotsLoop_bounds st 5 (st 0) 1
  have hr1 : (ubidotsLoop st 400 0 6).1 = st ((ubidotsLoop st 400 0 6).2 - 1) := by
    rw [hstep]
    rcases ubidotsLoop_final st 5 (st 0) 1 with heq | ⟨h1, _⟩
    · rw [heq]
      rfl
    · exact h1
  simp only [sendUbidotsPayload]
  refine ⟨by rw [hstep]; omega, by rw [hstep]; omega, ?_⟩
  rw [hr1]
  exact decide_eq_true_iff

end CO2Nexus
